import Mathlib

/-!
Shallow embedding of the booking availability and pricing engine of the
`pms` app (`src/pms/views.py`), together with theorems settling the spec
claims about it.

Dates are embedded as `Int` day ordinals: Python `date` comparison becomes
integer comparison and `(checkout - checkin).days` becomes integer
subtraction.  Money is embedded as `ℚ` (Python mixes `Decimal` prices and
`float` literals; both are exact rationals for the values involved).
-/

namespace PMS

/-- Modelled from the spec: the `Booking` model itself is not among the given
source files; spec §3 describes it as carrying identity `id`, a reference to
a `Room`, `checkin`/`checkout` dates, a `state` (`"NEW"` active, `"DEL"`
cancelled) and a `total` monetary amount.  The room reference is embedded as
the room's id. -/
structure Booking where
  id : Nat
  room : Nat
  checkin : Int
  checkout : Int
  state : String
  total : ℚ
  deriving Repr, DecidableEq

/-- The overlap test from the body of the loop in `check_room_availability`
(`src/pms/views.py` lines 33-34): `checkin < existing_booking.checkout and
checkout > existing_booking.checkin`. -/
def overlapsDates (checkin checkout : Int) (b : Booking) : Bool :=
  decide (checkin < b.checkout) && decide (checkout > b.checkin)

/-- Python truthiness of the `exclude_booking_id` argument, as tested by
`if exclude_booking_id:` (`src/pms/views.py` line 24): `None` and `0` are
falsy, every other integer is truthy. -/
def excludeTruthy : Option Nat → Bool
  | none => false
  | some x => x != 0

/-- `check_room_availability(room, checkin, checkout, exclude_booking_id)`
(`src/pms/views.py` lines 13-37).  The database of bookings is passed
explicitly as a list; the Django queryset chain
`Booking.objects.filter(room=room, state="NEW")`, the conditional
`.exclude(id=exclude_booking_id)` and the for-loop returning `False` on the
first overlap and `True` otherwise become list filters and a negated
`List.any`. -/
def check_room_availability (db : List Booking) (room : Nat)
    (checkin checkout : Int) (exclude_booking_id : Option Nat) : Bool :=
  let existing_bookings := db.filter fun b => b.room == room && b.state == "NEW"
  let existing_bookings :=
    if excludeTruthy exclude_booking_id then
      existing_bookings.filter fun b => b.id != exclude_booking_id.getD 0
    else existing_bookings
  !(existing_bookings.any fun b => overlapsDates checkin checkout b)

/-- The membership condition a booking must pass to reach the overlap loop of
`check_room_availability`: right room, state `"NEW"`, and not removed by a
truthy `exclude_booking_id`. -/
def candidate (room : Nat) (exclude_booking_id : Option Nat) (b : Booking) : Bool :=
  b.room == room && b.state == "NEW" &&
    (!excludeTruthy exclude_booking_id || b.id != exclude_booking_id.getD 0)

/-- Modelled from the spec: the room-type price attribute as the pricing code
probes it.  The `RoomType` model is not among the given source files; spec
§4.2 distinguishes a usable numeric per-night price from a present but
unusable one (any type error while multiplying, e.g. a `None` price raises
`TypeError`). -/
inductive PriceVal where
  | numeric (q : ℚ)
  | nonNumeric
  deriving Repr, DecidableEq

/-- Modelled from the spec: a room type, reduced to what the pricing code
reads.  `price = none` embeds `hasattr(room_type, 'price')` being false. -/
structure RoomType where
  price : Option PriceVal
  deriving Repr, DecidableEq

/-- Modelled from the spec: a room, reduced to what the pricing code reads.
`room_type = none` embeds both "no attribute" and "attribute is `None`",
the two cases lines 50-51 of `src/pms/views.py` test. -/
structure Room where
  room_type : Option RoomType
  deriving Repr, DecidableEq

/-- The part of a booking that `calculate_booking_total` reads: its room. -/
structure BookingRec where
  room : Room
  deriving Repr, DecidableEq

/-- A Python exception class caught by the `except (AttributeError, TypeError)`
clause of `calculate_booking_total`. -/
inductive PyError where
  | attributeError
  | typeError
  deriving Repr, DecidableEq

/-- The body of the `try` block of `calculate_booking_total`
(`src/pms/views.py` lines 48-56): if the room has a room type and the room
type has a price attribute, `nights * price` — which raises `TypeError` when
the price is not a number (e.g. `None`); otherwise the fallback
`nights * 100.00`. -/
def try_total (room : Room) (nights : Int) : Except PyError ℚ :=
  match room.room_type with
  | some rt =>
    match rt.price with
    | some (PriceVal.numeric p) => Except.ok ((nights : ℚ) * p)
    | some PriceVal.nonNumeric => Except.error PyError.typeError
    | none => Except.ok ((nights : ℚ) * 100)
  | none => Except.ok ((nights : ℚ) * 100)

/-- `calculate_booking_total(booking, checkin, checkout)` (`src/pms/views.py`
lines 40-61): `nights = (checkout - checkin).days`, then the `try` block with
its `except (AttributeError, TypeError)` fallback `nights * 100.00`.  The
result type `ℚ` (not `Except`) records that the function never raises. -/
def calculate_booking_total (booking : BookingRec) (checkin checkout : Int) : ℚ :=
  let nights : Int := checkout - checkin
  match try_total booking.room nights with
  | Except.ok total => total
  | Except.error _ => (nights : ℚ) * 100

/-- The submitted `EditBookingDatesForm` as the view reads it: whether
`form.is_valid()` holds, and the cleaned `checkin`/`checkout` dates. -/
structure FormData where
  valid : Bool
  checkin : Int
  checkout : Int
  deriving Repr, DecidableEq

/-- The outcome surfaced to the user by `EditBookingDatesView.post`. -/
inductive EditMsg where
  | success
  | noAvailability
  | formInvalid
  | notFound
  deriving Repr, DecidableEq

/-- `EditBookingDatesView.post` (`src/pms/views.py` lines 223-250).
`get_object_or_404` becomes `List.find?` (with `notFound` for the 404 path);
`room_table` maps a room id to the `Room` record the pricing code reads;
persistence (`updated_booking.save()`) becomes replacing the booking row in
the returned database.  On an availability conflict the database is returned
unchanged together with the `noAvailability` message. -/
def editBookingDatesPost (db : List Booking) (room_table : Nat → Room)
    (pk : Nat) (form : FormData) : List Booking × EditMsg :=
  match db.find? fun b => b.id == pk with
  | none => (db, EditMsg.notFound)
  | some booking =>
    if form.valid then
      if check_room_availability db booking.room form.checkin form.checkout
          (some booking.id) then
        let total := calculate_booking_total ⟨room_table booking.room⟩
          form.checkin form.checkout
        let updated := { booking with
          checkin := form.checkin, checkout := form.checkout, total := total }
        (db.map fun b => if b.id == pk then updated else b, EditMsg.success)
      else (db, EditMsg.noAvailability)
    else (db, EditMsg.formInvalid)

/-- The availability exclusion of `RoomSearchView.post` (`src/pms/views.py`
lines 102-109): `Room.objects.filter(...).exclude(booking__checkin__lte=
query[checkout], booking__checkout__gte=query[checkin],
booking__state__exact="NEW")`.  Django's `exclude()` with several conditions
spanning the multi-valued `booking` relation does not require a single
booking to satisfy them all: each condition is compiled to its own subquery,
so a room is excluded iff each of the three conditions is witnessed by some
— possibly different — booking of the room. -/
def room_search_excluded (db : List Booking) (roomId : Nat)
    (checkin checkout : Int) : Bool :=
  (db.any fun b => b.room == roomId && decide (b.checkin ≤ checkout)) &&
  (db.any fun b => b.room == roomId && decide (b.checkout ≥ checkin)) &&
  (db.any fun b => b.room == roomId && b.state == "NEW")

/-- `check_room_availability` returns `false` exactly when some booking in the
database passes the candidate filters and overlaps the requested range. -/
theorem check_room_availability_eq_false_iff (db : List Booking) (room : Nat)
    (checkin checkout : Int) (ex : Option Nat) :
    check_room_availability db room checkin checkout ex = false ↔
      ∃ b ∈ db, candidate room ex b = true ∧
        overlapsDates checkin checkout b = true := by
  simp only [check_room_availability, candidate]
  cases hex : excludeTruthy ex <;>
    simp [hex, List.any_eq_true, List.mem_filter]
  all_goals tauto

/-- C1 (amended): for every room, dates with `checkin < checkout`, and optional
excluded booking id that is nonzero when supplied, `check_room_availability`
returns `true` iff no booking for that room with state `NEW` (and, when an
exclude id is supplied, with id different from it) satisfies
`checkin < existing.checkout` and `checkout > existing.checkin`.  The nonzero
proviso is forced by the Python truthiness test `if exclude_booking_id:`,
which ignores a supplied exclude id of `0`. -/
theorem C1_availability_iff (db : List Booking) (r : Nat) (ci co : Int)
    (ex : Option Nat) (_hdates : ci < co) (hex : ∀ x, ex = some x → x ≠ 0) :
    check_room_availability db r ci co ex = true ↔
      ¬ ∃ b ∈ db, b.room = r ∧ b.state = "NEW" ∧
        (∀ x, ex = some x → b.id ≠ x) ∧ ci < b.checkout ∧ co > b.checkin := by
  rw [show (check_room_availability db r ci co ex = true) ↔
      ¬ (check_room_availability db r ci co ex = false) by
    cases check_room_availability db r ci co ex <;> simp]
  rw [check_room_availability_eq_false_iff]
  apply not_congr
  constructor
  · rintro ⟨b, hb, hcand, hov⟩
    refine ⟨b, hb, ?_⟩
    simp only [candidate, Bool.and_eq_true, beq_iff_eq, Bool.or_eq_true,
      Bool.not_eq_true', bne_iff_ne, ne_eq] at hcand
    obtain ⟨⟨hroom, hstate⟩, hexb⟩ := hcand
    simp only [overlapsDates, Bool.and_eq_true, decide_eq_true_eq] at hov
    refine ⟨hroom, hstate, ?_, hov.1, hov.2⟩
    rintro x rfl
    have hx := hex x rfl
    rcases hexb with hfalse | hid
    · exact absurd hfalse (by simp [excludeTruthy, hx])
    · simpa using hid
  · rintro ⟨b, hb, hroom, hstate, hid, h1, h2⟩
    refine ⟨b, hb, ?_, by simp [overlapsDates, h1, h2]⟩
    cases ex with
    | none => simp [candidate, excludeTruthy, hroom, hstate]
    | some x =>
      simp [candidate, excludeTruthy, hroom, hstate, hex x rfl, hid x rfl]

/-- C1 witness: a database with one `NEW` booking for room `1` over
`[5, 10)`, request `[12, 14)` with exclude id `7`: available, and indeed no
non-excluded active booking overlaps. -/
theorem C1_witness :
    check_room_availability [⟨1, 1, 5, 10, "NEW", 0⟩] 1 12 14 (some 7) = true ↔
      ¬ ∃ b ∈ ([⟨1, 1, 5, 10, "NEW", 0⟩] : List Booking), b.room = 1 ∧
        b.state = "NEW" ∧ (∀ x, (some 7 : Option Nat) = some x → b.id ≠ x) ∧
        (12 : Int) < b.checkout ∧ (14 : Int) > b.checkin :=
  C1_availability_iff [⟨1, 1, 5, 10, "NEW", 0⟩] 1 12 14 (some 7) (by decide)
    (fun x hx => by cases hx; decide)

/-- C1 counterexample: the claim as stated fails when the supplied exclude id
is `0`.  With one `NEW` booking of id `0` for room `1` over `[5, 10)` and
request `[6, 8)` with exclude id `0`, no booking with id different from the
exclude id overlaps — the claim demands `true` — yet the code returns
`false`, because `if exclude_booking_id:` treats `0` as "not supplied" and
the booking is never excluded. -/
theorem C1_counterexample :
    check_room_availability [⟨0, 1, 5, 10, "NEW", 0⟩] 1 6 8 (some 0) = false ∧
    ¬ ∃ b ∈ ([⟨0, 1, 5, 10, "NEW", 0⟩] : List Booking), b.room = 1 ∧
      b.state = "NEW" ∧ b.id ≠ 0 ∧ (6 : Int) < b.checkout ∧
      (8 : Int) > b.checkin := by
  decide

/-- C2: `calculate_booking_total` never raises (its embedding returns a plain
`ℚ`, the `except` clause of the source catching the only error its `try`
body can produce): whenever the booking's room has no room-type association,
the room-type lacks a price attribute, or a type error occurs using the
price, it returns `nights * 100.00` with `nights = checkout - checkin` in
whole days. -/
theorem C2_pricing_fallback (booking : BookingRec) (ci co : Int)
    (h : booking.room.room_type = none ∨
      ∃ rt, booking.room.room_type = some rt ∧
        (rt.price = none ∨ rt.price = some PriceVal.nonNumeric)) :
    calculate_booking_total booking ci co = ((co - ci : Int) : ℚ) * 100 := by
  rcases h with h | ⟨rt, hrt, hp⟩
  · simp [calculate_booking_total, try_total, h]
  · rcases hp with hp | hp <;>
      simp [calculate_booking_total, try_total, hrt, hp]

/-- C2 witness: a room with no room-type, stay `[0, 2)`: total is
`2 * 100 = 200`, the spec's scenario 5. -/
theorem C2_witness :
    calculate_booking_total ⟨⟨none⟩⟩ 0 2 = ((2 - 0 : Int) : ℚ) * 100 :=
  C2_pricing_fallback ⟨⟨none⟩⟩ 0 2 (Or.inl rfl)

/-- C3: touching intervals never conflict: against a single active `NEW`
booking over `[b.checkin, b.checkout)`, a requested stay ending exactly at
`b.checkin` and a requested stay starting exactly at `b.checkout` are both
reported available. -/
theorem C3_adjacent_available (b : Booking) (a e : Int) (h : b.state = "NEW") :
    check_room_availability [b] b.room a b.checkin none = true ∧
    check_room_availability [b] b.room b.checkout e none = true := by
  constructor <;>
    simp [check_room_availability, excludeTruthy, overlapsDates, h]

/-- C3 witness: the spec's scenario 2: booking `[5, 7)`, requests `[3, 5)`
and `[7, 9)` are both available. -/
theorem C3_witness :
    check_room_availability [⟨1, 1, 5, 7, "NEW", 0⟩] 1 3 5 none = true ∧
    check_room_availability [⟨1, 1, 5, 7, "NEW", 0⟩] 1 7 9 none = true :=
  C3_adjacent_available ⟨1, 1, 5, 7, "NEW", 0⟩ 3 9 rfl

/-- C4: a booking whose state is `DEL` never changes the result of
`check_room_availability` — prepending any cancelled booking to the database
leaves the result untouched, for every room, date range and exclude id. -/
theorem C4_del_invisible (B : Booking) (db : List Booking) (r : Nat)
    (ci co : Int) (ex : Option Nat) (h : B.state = "DEL") :
    check_room_availability (B :: db) r ci co ex =
      check_room_availability db r ci co ex := by
  have hB : (B.room == r && B.state == "NEW") = false := by
    rw [h, show (("DEL" : String) == "NEW") = false from by decide,
      Bool.and_false]
  simp [check_room_availability, List.filter_cons, hB]

/-- C4 witness: the spec's scenario 3: a cancelled booking over `[5, 10)` does
not block the overlapping request `[6, 8)`. -/
theorem C4_witness :
    check_room_availability [⟨2, 1, 5, 10, "DEL", 0⟩] 1 6 8 none = true :=
  (C4_del_invisible ⟨2, 1, 5, 10, "DEL", 0⟩ [] 1 6 8 none rfl).trans (by decide)

/-- C5 (amended): self-exclusion for a nonzero exclude id: whenever every
active `NEW` booking of the room that overlaps the requested range has id
`X`, and `X ≠ 0` is supplied as the exclude id, `check_room_availability`
returns `true`.  The nonzero proviso is forced by the truthiness test
`if exclude_booking_id:`, which ignores an exclude id of `0`. -/
theorem C5_self_exclusion (db : List Booking) (r : Nat) (ci co : Int)
    (X : Nat) (hX : X ≠ 0)
    (honly : ∀ b ∈ db, b.room = r → b.state = "NEW" →
      overlapsDates ci co b = true → b.id = X) :
    check_room_availability db r ci co (some X) = true := by
  cases hc : check_room_availability db r ci co (some X)
  · exfalso
    rw [check_room_availability_eq_false_iff] at hc
    obtain ⟨b, hb, hcand, hov⟩ := hc
    simp only [candidate, excludeTruthy, Bool.and_eq_true, beq_iff_eq,
      Bool.or_eq_true, Bool.not_eq_true', bne_iff_ne, ne_eq,
      Option.getD_some] at hcand
    obtain ⟨⟨hroom, hstate⟩, hid⟩ := hcand
    rcases hid with hfalse | hid
    · exact absurd hfalse (by simpa using hX)
    · exact hid (honly b hb hroom hstate hov)
  · rfl

/-- C5 witness: booking id `9` for room `2` over `[3, 9)` overlaps request
`[4, 6)`, but excluding id `9` makes the room available. -/
theorem C5_witness :
    check_room_availability [⟨9, 2, 3, 9, "NEW", 0⟩] 2 4 6 (some 9) = true :=
  C5_self_exclusion [⟨9, 2, 3, 9, "NEW", 0⟩] 2 4 6 9 (by decide)
    (by decide)

/-- C5 counterexample: the claim as stated fails for exclude id `X = 0`: one
`NEW` booking of id `0` for room `2` over `[3, 9)` is the only booking
overlapping the request `[4, 6)`, yet supplying `0` as the exclude id still
yields `false`, because the truthiness test skips the exclusion. -/
theorem C5_counterexample :
    (∀ b ∈ ([⟨0, 2, 3, 9, "NEW", 0⟩] : List Booking),
      overlapsDates 4 6 b = true → b.id = 0) ∧
    check_room_availability [⟨0, 2, 3, 9, "NEW", 0⟩] 2 4 6 (some 0) = false := by
  decide

/-- C6 (amended): for the degenerate input `checkin = checkout = t`,
`check_room_availability` (a total function — no error) returns `true` iff
no candidate booking strictly contains `t`, i.e. iff no active non-excluded
booking has `checkin < t < checkout`.  Contrary to the claim, the result is
not always `true`: the strict-inequality test fires when `t` lies strictly
inside an existing interval. -/
theorem C6_degenerate_iff (db : List Booking) (r : Nat) (t : Int)
    (ex : Option Nat) :
    check_room_availability db r t t ex = true ↔
      ∀ b ∈ db, candidate r ex b = true →
        ¬ (b.checkin < t ∧ t < b.checkout) := by
  constructor
  · intro h b hb hcand hcontra
    have hfalse : check_room_availability db r t t ex = false := by
      rw [check_room_availability_eq_false_iff]
      exact ⟨b, hb, hcand, by simp [overlapsDates, hcontra.1, hcontra.2]⟩
    rw [h] at hfalse
    cases hfalse
  · intro h
    cases hc : check_room_availability db r t t ex
    · exfalso
      rw [check_room_availability_eq_false_iff] at hc
      obtain ⟨b, hb, hcand, hov⟩ := hc
      simp only [overlapsDates, Bool.and_eq_true, decide_eq_true_eq] at hov
      exact h b hb hcand ⟨hov.2, hov.1⟩
    · rfl

/-- C6 counterexample: with one active booking `[5, 10)` for room `1`, the
degenerate request `checkin = checkout = 7` returns `false`, not the `true`
the claim promises for every degenerate input. -/
theorem C6_counterexample :
    check_room_availability [⟨1, 1, 5, 10, "NEW", 0⟩] 1 7 7 none = false := by
  decide

/-- C7: when the booking's room has a room-type exposing a usable numeric
per-night price `p`, `calculate_booking_total` returns `nights * p` with
`nights = checkout - checkin` in whole days; `ci` and `co` are unconstrained,
so a zero or negative night count multiplies through unguarded. -/
theorem C7_price_total (booking : BookingRec) (ci co : Int) (rt : RoomType)
    (p : ℚ) (hrt : booking.room.room_type = some rt)
    (hp : rt.price = some (PriceVal.numeric p)) :
    calculate_booking_total booking ci co = ((co - ci : Int) : ℚ) * p := by
  simp [calculate_booking_total, try_total, hrt, hp]

/-- C7 witness: price `50`, degenerate stay from day `10` to day `8`: the
unguarded night count `-2` multiplies through to `-100`. -/
theorem C7_witness :
    calculate_booking_total ⟨⟨some ⟨some (PriceVal.numeric 50)⟩⟩⟩ 10 8 =
      ((8 - 10 : Int) : ℚ) * 50 :=
  C7_price_total ⟨⟨some ⟨some (PriceVal.numeric 50)⟩⟩⟩ 10 8
    ⟨some (PriceVal.numeric 50)⟩ 50 rfl rfl

/-- C8: in `EditBookingDatesView.post` with a valid form, when
`check_room_availability` rejects the new dates the database is returned
unchanged (the booking keeps its `checkin`, `checkout` and `total`) together
with the unavailability message; when it accepts them, the booking row is
saved with the new dates and the total recomputed by
`calculate_booking_total`. -/
theorem C8_edit_workflow (db : List Booking) (room_table : Nat → Room)
    (pk : Nat) (form : FormData) (booking : Booking)
    (hfind : (db.find? fun b => b.id == pk) = some booking)
    (hvalid : form.valid = true) :
    (check_room_availability db booking.room form.checkin form.checkout
        (some booking.id) = false →
      editBookingDatesPost db room_table pk form =
        (db, EditMsg.noAvailability)) ∧
    (check_room_availability db booking.room form.checkin form.checkout
        (some booking.id) = true →
      editBookingDatesPost db room_table pk form =
        (db.map fun b => if b.id == pk then
            { booking with
              checkin := form.checkin, checkout := form.checkout,
              total := calculate_booking_total ⟨room_table booking.room⟩
                form.checkin form.checkout }
          else b, EditMsg.success)) := by
  constructor <;> intro hav <;>
    simp [editBookingDatesPost, hfind, hvalid, hav]

/-- C8 witness: editing booking `2` of room `1` to `[8, 12)` while booking
`1` occupies `[5, 10)`: unavailable, so the database comes back unchanged
with the unavailability message. -/
theorem C8_witness :
    editBookingDatesPost
        [⟨1, 1, 5, 10, "NEW", 0⟩, ⟨2, 1, 20, 25, "NEW", 0⟩]
        (fun _ => ⟨none⟩) 2 ⟨true, 8, 12⟩ =
      ([⟨1, 1, 5, 10, "NEW", 0⟩, ⟨2, 1, 20, 25, "NEW", 0⟩],
        EditMsg.noAvailability) :=
  (C8_edit_workflow [⟨1, 1, 5, 10, "NEW", 0⟩, ⟨2, 1, 20, 25, "NEW", 0⟩]
    (fun _ => ⟨none⟩) 2 ⟨true, 8, 12⟩ ⟨2, 1, 20, 25, "NEW", 0⟩
    (by decide) rfl).1 (by decide)

/-- C9: the room-search exclusion uses non-strict comparisons: a room is
excluded from the search results whenever one of its `NEW` bookings
satisfies `checkin ≤ requested checkout` and `checkout ≥ requested checkin`
(that booking witnesses all three exclusion subqueries at once); hence a
room whose only active booking merely touches the requested range at an
endpoint is excluded from the results even though `check_room_availability`
reports the same dates as available — a stricter rule than the half-open
one. -/
theorem C9_search_nonstrict (db : List Booking) (r : Nat) (ci co : Int) :
    (∀ b ∈ db, b.room = r → b.state = "NEW" →
      b.checkin ≤ co → b.checkout ≥ ci →
      room_search_excluded db r ci co = true) ∧
    (∀ b : Booking, b.state = "NEW" → b.checkin < b.checkout → ci < co →
      (co = b.checkin ∨ ci = b.checkout) →
      room_search_excluded [b] b.room ci co = true ∧
      check_room_availability [b] b.room ci co none = true) := by
  constructor
  · intro b hb hroom hstate hle hge
    simp only [room_search_excluded, Bool.and_eq_true, List.any_eq_true]
    exact ⟨⟨⟨b, hb, by simp [hroom, hle]⟩, ⟨b, hb, by simp [hroom, hge]⟩⟩,
      ⟨b, hb, by simp [hroom, hstate]⟩⟩
  · rintro b hstate horder hreq (rfl | rfl)
    · refine ⟨?_, ?_⟩
      · simp [room_search_excluded, hstate,
          le_of_lt (lt_trans hreq horder)]
      · simp [check_room_availability, excludeTruthy, overlapsDates, hstate]
    · refine ⟨?_, ?_⟩
      · simp [room_search_excluded, hstate,
          le_of_lt (lt_trans horder hreq)]
      · simp [check_room_availability, excludeTruthy, overlapsDates, hstate]

/-- C9 witness: room `3` with one `NEW` booking `[5, 9)`; the back-to-back
request `[1, 5)` is excluded by the search but available to
`check_room_availability`. -/
theorem C9_witness :
    room_search_excluded [⟨1, 3, 5, 9, "NEW", 0⟩] 3 1 5 = true ∧
    check_room_availability [⟨1, 3, 5, 9, "NEW", 0⟩] 3 1 5 none = true :=
  (C9_search_nonstrict [⟨1, 3, 5, 9, "NEW", 0⟩] 3 1 5).2
    ⟨1, 3, 5, 9, "NEW", 0⟩ rfl (by decide) (by decide) (Or.inl rfl)

/-- C10: the result of `check_room_availability` is deterministic in the
candidate set: permuting the database of bookings never changes the returned
boolean. -/
theorem C10_perm_invariant (db db' : List Booking) (h : db.Perm db')
    (r : Nat) (ci co : Int) (ex : Option Nat) :
    check_room_availability db r ci co ex =
      check_room_availability db' r ci co ex := by
  have key : ∀ l₁ l₂ : List Booking, l₁.Perm l₂ →
      check_room_availability l₁ r ci co ex = false →
      check_room_availability l₂ r ci co ex = false := by
    intro l₁ l₂ hp h1
    rw [check_room_availability_eq_false_iff] at h1 ⊢
    obtain ⟨b, hb, hcand, hov⟩ := h1
    exact ⟨b, hp.mem_iff.mp hb, hcand, hov⟩
  cases h1 : check_room_availability db r ci co ex
  · exact (key db db' h h1).symm
  · cases h2 : check_room_availability db' r ci co ex
    · exact h1.symm.trans (key db' db h.symm h2)
    · rfl

/-- C10 witness: swapping two bookings of room `1` leaves the answer for the
request `[6, 8)` unchanged. -/
theorem C10_witness :
    check_room_availability
        [⟨1, 1, 5, 10, "NEW", 0⟩, ⟨2, 1, 12, 14, "NEW", 0⟩] 1 6 8 none =
      check_room_availability
        [⟨2, 1, 12, 14, "NEW", 0⟩, ⟨1, 1, 5, 10, "NEW", 0⟩] 1 6 8 none :=
  C10_perm_invariant _ _ (List.Perm.swap _ _ _) 1 6 8 none

end PMS
